import Mathlib

/-!
Shallow embedding of `test-node-server.py`, a mock BotNet node server:
a Flask app holding an in-memory list `handshake_results` and exposing
  POST /api/v1/handshake/result   (receive_handshake_result)
  GET  /api/v1/info               (node_info)
  GET  /api/v1/handshake/history  (handshake_history)
  GET  /health                    (health_check)
  GET  /                          (root)
JSON values are embedded as an inductive `JVal`; Python dicts are
association lists in insertion order.  Wall-clock readings
(`datetime.now().isoformat()`, `time.time()`) are passed in as explicit
parameters.  Numeric JSON rendering in the root HTML page abstracts the
exact floating-point repr of Python (the page content is presentational).
-/

namespace BotNet

/-- A JSON value, as produced by `request.get_json()`.  Numbers are
modelled as rationals (JSON numbers; exact float formatting is out of
scope).  Objects are association lists in key insertion order, with
distinct keys as produced by a JSON parse. -/
inductive JVal where
  | null
  | bool (b : Bool)
  | num (q : ℚ)
  | str (s : String)
  | arr (xs : List JVal)
  | obj (kvs : List (String × JVal))

/-- A stored handshake result: the Python dict built at line 33, kept
as the association list of its entries in insertion order. -/
abbrev Entry := List (String × JVal)

/-- Membership of a key in a Python dict (association list). -/
def hasKey (kvs : Entry) (k : String) : Bool :=
  kvs.any (fun p => p.1 == k)

/-- Lookup of a key in a Python dict (association list). -/
def objGet (kvs : Entry) (k : String) : Option JVal :=
  (kvs.find? (fun p => p.1 == k)).map (fun p => p.2)

/-- Python `field in data` for `data` an arbitrary parsed JSON value and
`field` a string: key test on dicts, element equality on lists (a string
needle equals only an equal string element), substring test on strings,
and a TypeError on null, booleans and numbers. -/
def pyIn (field : String) : JVal → Except String Bool
  | .obj kvs => .ok (hasKey kvs field)
  | .arr xs => .ok (xs.any (fun v => match v with
      | .str s => s == field
      | _ => false))
  | .str s => .ok ((s.toList.tails).any (fun t => field.toList.isPrefixOf t))
  | .null => .error "argument of type NoneType is not iterable"
  | .bool _ => .error "argument of type bool is not iterable"
  | .num _ => .error "argument of type number is not iterable"

/-- Python `data[key]` for a string key: dict lookup (KeyError when the
key is absent), TypeError on anything that is not a dict. -/
def pyGetItem (data : JVal) (k : String) : Except String JVal :=
  match data with
  | .obj kvs =>
    match objGet kvs k with
    | some v => .ok v
    | none => .error ("KeyError: " ++ k)
  | _ => .error "object is not subscriptable by string"

/-- Python `data.get(key, default)`: dict lookup with default,
AttributeError on anything that is not a dict. -/
def pyGet (data : JVal) (k : String) (d : JVal) : Except String JVal :=
  match data with
  | .obj kvs => .ok ((objGet kvs k).getD d)
  | _ => .error "object has no attribute get"

/-- The required-field list of line 24, in check order. -/
def required_fields : List String :=
  ["session_id", "score", "accepted", "riddle_id"]

/-- The validation loop of lines 25-30: returns the first field whose
membership test is false, propagating a raised membership test. -/
def firstMissing (data : JVal) : List String → Except String (Option String)
  | [] => .ok none
  | f :: fs =>
    match pyIn f data with
    | .error e => .error e
    | .ok true => firstMissing data fs
    | .ok false => .ok (some f)

/-- The result dict literal of lines 33-41, in key insertion order. -/
def mkResult (now : String) (sid sc ac rid eid fb : JVal) : Entry :=
  [("timestamp", .str now),
   ("session_id", sid),
   ("score", sc),
   ("accepted", ac),
   ("riddle_id", rid),
   ("evaluator_id", eid),
   ("feedback", fb)]

/-- An HTTP response: a JSON body with a status code (Flask `jsonify`,
status 200 when unannotated), or an HTML page. -/
inductive Resp where
  | json (status : Nat) (body : JVal)
  | html (status : Nat) (body : String)

/-- The 400 response of lines 27-30. -/
def missingFieldResp (f : String) : Resp :=
  .json 400 (.obj [("success", .bool false),
                   ("error", .str ("Missing required field: " ++ f))])

/-- The 500 response of lines 61-64. -/
def serverErrResp (e : String) : Resp :=
  .json 500 (.obj [("success", .bool false), ("error", .str e)])

/-- The success response of lines 52-57. -/
def successResp (ts : String) : Resp :=
  .json 200 (.obj [("success", .bool true),
                   ("message", .str "Handshake result received successfully"),
                   ("node_id", .str "test-mock-node"),
                   ("timestamp", .str ts)])

/-- The body of the `try` block of lines 20-57, after `request.get_json()`
has produced `data`: validation, record construction, append, success
response.  A raised Python exception is an `Except.error` carrying its
message. -/
def handlePost (now : String) (data : JVal) (log : List Entry) :
    Except String (Resp × List Entry) :=
  match firstMissing data required_fields with
  | .error e => .error e
  | .ok (some f) => .ok (missingFieldResp f, log)
  | .ok none =>
    match pyGetItem data "session_id" with
    | .error e => .error e
    | .ok sid =>
      match pyGetItem data "score" with
      | .error e => .error e
      | .ok sc =>
        match pyGetItem data "accepted" with
        | .error e => .error e
        | .ok ac =>
          match pyGetItem data "riddle_id" with
          | .error e => .error e
          | .ok rid =>
            match pyGet data "evaluator_id" (.str "unknown") with
            | .error e => .error e
            | .ok eid =>
              match pyGet data "feedback" (.str "No feedback provided") with
              | .error e => .error e
              | .ok fb =>
                .ok (successResp now,
                     log ++ [mkResult now sid sc ac rid eid fb])

/-- The whole `try` block of lines 20-57: first `request.get_json()`
(whose outcome, an error when parsing itself raised, is the `getJson`
argument), then validation and processing. -/
def tryBody (now : String) (getJson : Except String JVal)
    (log : List Entry) : Except String (Resp × List Entry) :=
  match getJson with
  | .error e => .error e
  | .ok data => handlePost now data log

/-- `receive_handshake_result` (lines 17-64): any exception escaping the
`try` block is caught and returned as the 500 response of lines 59-64,
leaving the log unchanged. -/
def receive_handshake_result (now : String) (getJson : Except String JVal)
    (log : List Entry) : Resp × List Entry :=
  match tryBody now getJson log with
  | .ok r => r
  | .error e => (serverErrResp e, log)

/-- `node_info` (lines 66-79): `now` is the `time.time()` reading. -/
def node_info (now : ℚ) (log : List Entry) : Resp :=
  .json 200 (.obj
    [("success", .bool true),
     ("data", .obj
       [("node_id", .str "test-mock-node"),
        ("version", .str "1.0.0"),
        ("capabilities", .arr [.str "handshake_testing",
                               .str "callback_verification"]),
        ("status", .str "active"),
        ("handshake_results_received", .num (log.length : ℚ)),
        ("uptime", .num now)])])

/-- Python slice `l[-n:]`: the last `n` elements (all of them when the
list is shorter). -/
def lastSlice (n : Nat) (l : List Entry) : List Entry :=
  l.drop (l.length - n)

/-- `handshake_history` (lines 81-90). -/
def handshake_history (log : List Entry) : Resp :=
  .json 200 (.obj
    [("success", .bool true),
     ("data", .obj
       [("total_results", .num (log.length : ℚ)),
        ("results", .arr ((lastSlice 10 log).map JVal.obj))])])

/-- `health_check` (lines 92-99): `now` is the `time.time()` reading. -/
def health_check (now : ℚ) : Resp :=
  .json 200 (.obj
    [("status", .str "healthy"),
     ("timestamp", .num now),
     ("node_type", .str "mock_test_node")])

/-- A run of `n` spaces. -/
def spaces (n : Nat) : String :=
  "".pushn (Char.ofNat 32) n

mutual

/-- `json.dumps(v, indent=2)` at indentation `pad`, following the layout
of the Python serializer (numeric repr abstracted to the rational
rendering). -/
def dumpsV (pad : Nat) : JVal → String
  | .null => "null"
  | .bool b => cond b "true" "false"
  | .num q => toString q
  | .str s => "\"" ++ s ++ "\""
  | .arr [] => "[]"
  | .arr (x :: xs) =>
      "[\n" ++ String.intercalate ",\n" (dumpsL (pad + 2) (x :: xs)) ++
      "\n" ++ spaces pad ++ "]"
  | .obj [] => "\x7b\x7d"
  | .obj (kv :: kvs) =>
      "\x7b\n" ++ String.intercalate ",\n" (dumpsKV (pad + 2) (kv :: kvs)) ++
      "\n" ++ spaces pad ++ "\x7d"

/-- Serialized lines of the elements of a JSON array. -/
def dumpsL (pad : Nat) : List JVal → List String
  | [] => []
  | v :: vs => (spaces pad ++ dumpsV pad v) :: dumpsL pad vs

/-- Serialized lines of the pairs of a JSON object. -/
def dumpsKV (pad : Nat) : List (String × JVal) → List String
  | [] => []
  | (k, v) :: kvs =>
      (spaces pad ++ "\"" ++ k ++ "\": " ++ dumpsV pad v) :: dumpsKV pad kvs

end

/-- `root` (lines 101-123): the HTML status page, with the result count
and the last three results serialized into it. -/
def root (log : List Entry) : Resp :=
  .html 200 ("\n    <html>\n    <head><title>Mock BotNet Test Node</title></head>\n" ++
    "    <body style=\"font-family: monospace; background: #0f1419; color: #e6e6e6; padding: 20px;\">\n" ++
    "        <h1>Mock BotNet Test Node</h1>\n" ++
    "        <p><strong>Status:</strong> Active and ready for handshake testing</p>\n" ++
    "        <p><strong>Results Received:</strong> " ++ toString log.length ++ "</p>\n" ++
    "        <p><strong>Endpoints:</strong></p>\n        <ul>\n" ++
    "            <li><code>POST /api/v1/handshake/result</code> - Receive handshake results</li>\n" ++
    "            <li><code>GET /api/v1/info</code> - Node information</li>\n" ++
    "            <li><code>GET /api/v1/handshake/history</code> - Handshake history</li>\n" ++
    "            <li><code>GET /health</code> - Health check</li>\n" ++
    "        </ul>\n        \n        <h2>Recent Handshake Results:</h2>\n        <pre>" ++
    dumpsV 0 (.arr ((lastSlice 3 log).map JVal.obj)) ++
    "</pre>\n    </body>\n    </html>\n    ")

/-- An inbound HTTP request, carrying the clock readings its handler
takes from the environment. -/
inductive Request where
  | postResult (now : String) (getJson : Except String JVal)
  | getInfo (now : ℚ)
  | getHistory
  | getHealth (now : ℚ)
  | getRoot

/-- Whether a request is one of the GET endpoints. -/
def isGet : Request → Bool
  | .postResult _ _ => false
  | .getInfo _ => true
  | .getHistory => true
  | .getHealth _ => true
  | .getRoot => true

/-- One request dispatched against the current log: the response, and
the log afterwards.  Only the POST handler ever produces a new log. -/
def step (log : List Entry) : Request → Resp × List Entry
  | .postResult now gj => receive_handshake_result now gj log
  | .getInfo now => (node_info now log, log)
  | .getHistory => (handshake_history log, log)
  | .getHealth now => (health_check now, log)
  | .getRoot => (root log, log)

/-- The log after a sequence of requests. -/
def run (log : List Entry) : List Request → List Entry
  | [] => log
  | r :: rs => run (step log r).2 rs

/-- Status code of a response. -/
def Resp.statusCode : Resp → Nat
  | .json st _ => st
  | .html st _ => st

/-- The fields every stored entry must carry (the four required fields
plus the two defaulted ones). -/
def entryFields : List String :=
  ["session_id", "score", "accepted", "riddle_id", "evaluator_id", "feedback"]

/-- A stored entry carrying all six fields. -/
def entryWF (e : Entry) : Prop :=
  ∀ f ∈ entryFields, hasKey e f = true

/-- The uptime field of an info response, when present. -/
def uptimeOf : Resp → Option ℚ
  | .json _ (.obj kvs) =>
    match objGet kvs "data" with
    | some (.obj ds) =>
      match objGet ds "uptime" with
      | some (.num q) => some q
      | _ => none
    | _ => none
  | _ => none

/-! ### Helper lemmas -/

/-- Dict lookup succeeds exactly when the key test succeeds. -/
lemma objGet_isSome_eq (kvs : Entry) (k : String) :
    (objGet kvs k).isSome = hasKey kvs k := by
  induction kvs with
  | nil => rfl
  | cons p ps ih =>
    simp only [objGet, hasKey, List.find?, List.any_cons] at *
    cases h : (p.1 == k)
    · simpa [h] using ih
    · simp [h]

/-- An absent key looks up to none. -/
lemma objGet_eq_none (kvs : Entry) (k : String) (h : hasKey kvs k = false) :
    objGet kvs k = none := by
  have hs := objGet_isSome_eq kvs k
  rw [h] at hs
  exact Option.not_isSome_iff_eq_none.mp (by simp [hs])

/-- A present key looks up to some value. -/
lemma objGet_exists (kvs : Entry) (k : String) (h : hasKey kvs k = true) :
    ∃ v, objGet kvs k = some v := by
  have hs := objGet_isSome_eq kvs k
  rw [h] at hs
  exact Option.isSome_iff_exists.mp hs

/-- A successful lookup implies the key test succeeds. -/
lemma hasKey_of_objGet (kvs : Entry) (k : String) (v : JVal)
    (h : objGet kvs k = some v) : hasKey kvs k = true := by
  have hs := objGet_isSome_eq kvs k
  rw [h] at hs
  exact hs.symm

/-- On a JSON object, the validation loop returns the first field in
check order whose key is absent, and never raises. -/
lemma firstMissing_obj (kvs : Entry) (fs : List String) :
    firstMissing (.obj kvs) fs = .ok (fs.find? (fun f => !hasKey kvs f)) := by
  induction fs with
  | nil => rfl
  | cons f fs ih =>
    simp only [firstMissing, pyIn, List.find?]
    cases h : hasKey kvs f
    · simp [h]
    · simp [h, ih]

/-- On a JSON object carrying all four required keys, the handler body
succeeds: it appends exactly one record built from the lookups (optional
fields defaulted) and answers with the success response. -/
lemma handlePost_all (now : String) (log : List Entry) (kvs : Entry)
    (h1 : hasKey kvs "session_id" = true) (h2 : hasKey kvs "score" = true)
    (h3 : hasKey kvs "accepted" = true) (h4 : hasKey kvs "riddle_id" = true) :
    ∃ v1 v2 v3 v4,
      objGet kvs "session_id" = some v1 ∧ objGet kvs "score" = some v2 ∧
      objGet kvs "accepted" = some v3 ∧ objGet kvs "riddle_id" = some v4 ∧
      handlePost now (.obj kvs) log =
        .ok (successResp now,
             log ++ [mkResult now v1 v2 v3 v4
               ((objGet kvs "evaluator_id").getD (.str "unknown"))
               ((objGet kvs "feedback").getD (.str "No feedback provided"))]) := by
  obtain ⟨v1, e1⟩ := objGet_exists kvs "session_id" h1
  obtain ⟨v2, e2⟩ := objGet_exists kvs "score" h2
  obtain ⟨v3, e3⟩ := objGet_exists kvs "accepted" h3
  obtain ⟨v4, e4⟩ := objGet_exists kvs "riddle_id" h4
  refine ⟨v1, v2, v3, v4, e1, e2, e3, e4, ?_⟩
  simp [handlePost, firstMissing_obj, required_fields, List.find?,
        h1, h2, h3, h4, pyGetItem, pyGet, e1, e2, e3, e4]

/-- On a JSON object missing a required key, the handler body returns
the 400 response for the first missing field and leaves the log alone. -/
lemma handlePost_missing (now : String) (log : List Entry) (kvs : Entry)
    (f : String)
    (hf : required_fields.find? (fun g => !hasKey kvs g) = some f) :
    handlePost now (.obj kvs) log = .ok (missingFieldResp f, log) := by
  simp [handlePost, firstMissing_obj, hf]

/-- Every successful outcome of the handler body either leaves the log
unchanged or appends exactly one record built by `mkResult`. -/
lemma handlePost_log_shape (now : String) (data : JVal) (log : List Entry)
    (r : Resp × List Entry) (h : handlePost now data log = .ok r) :
    r.2 = log ∨
    ∃ v1 v2 v3 v4 eid fb, r.2 = log ++ [mkResult now v1 v2 v3 v4 eid fb] := by
  unfold handlePost at h
  repeat' first
    | (injection h with h; subst h)
    | split at h
    | exact Except.noConfusion h
  all_goals first
    | exact Or.inl rfl
    | exact Or.inr ⟨_, _, _, _, _, _, rfl⟩

/-- Every successful outcome of the handler body answers with either a
400 missing-field response or the success response. -/
lemma handlePost_resp_shape (now : String) (data : JVal) (log : List Entry)
    (r : Resp × List Entry) (h : handlePost now data log = .ok r) :
    (∃ f, r.1 = missingFieldResp f) ∨ r.1 = successResp now := by
  unfold handlePost at h
  repeat' first
    | (injection h with h; subst h)
    | split at h
    | exact Except.noConfusion h
  all_goals first
    | exact Or.inl ⟨_, rfl⟩
    | exact Or.inr rfl

/-- The endpoint either reports a caught exception as the 500 response
with the log unchanged, or relays a successful handler outcome. -/
lemma receive_cases (now : String) (gj : Except String JVal)
    (log : List Entry) :
    (∃ e, tryBody now gj log = .error e ∧
       receive_handshake_result now gj log = (serverErrResp e, log)) ∨
    (∃ r, tryBody now gj log = .ok r ∧
       receive_handshake_result now gj log = r) := by
  unfold receive_handshake_result
  cases h : tryBody now gj log with
  | error e => exact Or.inl ⟨e, rfl, rfl⟩
  | ok r => exact Or.inr ⟨r, rfl, rfl⟩

/-- The log after the POST endpoint is the old log or the old log with
exactly one `mkResult` record appended. -/
lemma receive_log_shape (now : String) (gj : Except String JVal)
    (log : List Entry) :
    (receive_handshake_result now gj log).2 = log ∨
    ∃ v1 v2 v3 v4 eid fb,
      (receive_handshake_result now gj log).2 =
        log ++ [mkResult now v1 v2 v3 v4 eid fb] := by
  rcases receive_cases now gj log with ⟨e, _, hr⟩ | ⟨r, ht, hr⟩
  · exact Or.inl (by rw [hr])
  · rw [hr]
    unfold tryBody at ht
    cases gj with
    | error e => exact Except.noConfusion ht
    | ok data => exact handlePost_log_shape now data log r ht

/-! ### Claims -/

/-- C1: a POST whose JSON object body is missing at least one of the
keys session_id, score, accepted, riddle_id gets the HTTP 400 response
with success false and error message "Missing required field: " followed
by exactly the first missing field in the check order session_id, score,
accepted, riddle_id, and the result log is unchanged. -/
theorem claim_C1 (now : String) (log : List Entry) (kvs : Entry)
    (h : ∃ f ∈ required_fields, hasKey kvs f = false) :
    ∃ f, required_fields.find? (fun g => !hasKey kvs g) = some f ∧
      hasKey kvs f = false ∧
      receive_handshake_result now (.ok (.obj kvs)) log =
        (missingFieldResp f, log) := by
  obtain ⟨f0, hf0, hm0⟩ := h
  have hsome : (required_fields.find? (fun g => !hasKey kvs g)).isSome := by
    rw [List.find?_isSome]
    exact ⟨f0, hf0, by simp [hm0]⟩
  obtain ⟨f, hfind⟩ := Option.isSome_iff_exists.mp hsome
  have hmiss : hasKey kvs f = false := by
    have := List.find?_some hfind
    simpa using this
  exact ⟨f, hfind, hmiss, by
    simp [receive_handshake_result, tryBody, handlePost_missing now log kvs f hfind]⟩

/-- Witness for C1 at a concrete body missing score, accepted and
riddle_id: the 400 response names score, the first in check order. -/
theorem claim_C1_witness :
    ∃ f, required_fields.find?
        (fun g => !hasKey [("session_id", JVal.str "s1")] g) = some f ∧
      hasKey [("session_id", JVal.str "s1")] f = false ∧
      receive_handshake_result "2024-01-01T00:00:00"
        (.ok (.obj [("session_id", JVal.str "s1")])) [] =
        (missingFieldResp f, []) :=
  claim_C1 "2024-01-01T00:00:00" [] [("session_id", JVal.str "s1")] (by decide)

/-- C2: a POST whose JSON object body carries all four required keys
appends exactly one entry: the entry carries the server-assigned
timestamp, evaluator_id defaults to "unknown" and feedback to the
sentinel feedback string when omitted, and the response is the success
response carrying success true, node_id test-mock-node and the same
timestamp as the stored entry. -/
theorem claim_C2 (now : String) (log : List Entry) (kvs : Entry)
    (h : ∀ f ∈ required_fields, hasKey kvs f = true) :
    ∃ v1 v2 v3 v4,
      objGet kvs "session_id" = some v1 ∧ objGet kvs "score" = some v2 ∧
      objGet kvs "accepted" = some v3 ∧ objGet kvs "riddle_id" = some v4 ∧
      receive_handshake_result now (.ok (.obj kvs)) log =
        (successResp now,
         log ++ [mkResult now v1 v2 v3 v4
           ((objGet kvs "evaluator_id").getD (.str "unknown"))
           ((objGet kvs "feedback").getD (.str "No feedback provided"))]) ∧
      (receive_handshake_result now (.ok (.obj kvs)) log).2.length =
        log.length + 1 ∧
      (hasKey kvs "evaluator_id" = false →
        (objGet kvs "evaluator_id").getD (.str "unknown") = .str "unknown") ∧
      (hasKey kvs "feedback" = false →
        (objGet kvs "feedback").getD (.str "No feedback provided") =
          .str "No feedback provided") := by
  have h1 := h "session_id" (by simp [required_fields])
  have h2 := h "score" (by simp [required_fields])
  have h3 := h "accepted" (by simp [required_fields])
  have h4 := h "riddle_id" (by simp [required_fields])
  obtain ⟨v1, v2, v3, v4, e1, e2, e3, e4, hh⟩ :=
    handlePost_all now log kvs h1 h2 h3 h4
  refine ⟨v1, v2, v3, v4, e1, e2, e3, e4, ?_, ?_, ?_, ?_⟩
  · simp [receive_handshake_result, tryBody, hh]
  · simp [receive_handshake_result, tryBody, hh]
  · intro hk; simp [objGet_eq_none kvs _ hk]
  · intro hk; simp [objGet_eq_none kvs _ hk]

/-- Witness for C2 at a concrete valid body omitting both optional
fields. -/
theorem claim_C2_witness :
    ∃ v1 v2 v3 v4,
      objGet [("session_id", JVal.str "s1"), ("score", JVal.num 1),
              ("accepted", JVal.bool true), ("riddle_id", JVal.str "r1")]
        "session_id" = some v1 ∧
      objGet [("session_id", JVal.str "s1"), ("score", JVal.num 1),
              ("accepted", JVal.bool true), ("riddle_id", JVal.str "r1")]
        "score" = some v2 ∧
      objGet [("session_id", JVal.str "s1"), ("score", JVal.num 1),
              ("accepted", JVal.bool true), ("riddle_id", JVal.str "r1")]
        "accepted" = some v3 ∧
      objGet [("session_id", JVal.str "s1"), ("score", JVal.num 1),
              ("accepted", JVal.bool true), ("riddle_id", JVal.str "r1")]
        "riddle_id" = some v4 ∧
      receive_handshake_result "2024-01-01T00:00:00"
        (.ok (.obj [("session_id", JVal.str "s1"), ("score", JVal.num 1),
                    ("accepted", JVal.bool true),
                    ("riddle_id", JVal.str "r1")])) [] =
        (successResp "2024-01-01T00:00:00",
         [] ++ [mkResult "2024-01-01T00:00:00" v1 v2 v3 v4
           ((objGet [("session_id", JVal.str "s1"), ("score", JVal.num 1),
                     ("accepted", JVal.bool true),
                     ("riddle_id", JVal.str "r1")] "evaluator_id").getD
             (.str "unknown"))
           ((objGet [("session_id", JVal.str "s1"), ("score", JVal.num 1),
                     ("accepted", JVal.bool true),
                     ("riddle_id", JVal.str "r1")] "feedback").getD
             (.str "No feedback provided"))]) ∧
      (receive_handshake_result "2024-01-01T00:00:00"
        (.ok (.obj [("session_id", JVal.str "s1"), ("score", JVal.num 1),
                    ("accepted", JVal.bool true),
                    ("riddle_id", JVal.str "r1")])) []).2.length =
        List.length ([] : List Entry) + 1 ∧
      (hasKey [("session_id", JVal.str "s1"), ("score", JVal.num 1),
               ("accepted", JVal.bool true), ("riddle_id", JVal.str "r1")]
         "evaluator_id" = false →
        (objGet [("session_id", JVal.str "s1"), ("score", JVal.num 1),
                 ("accepted", JVal.bool true), ("riddle_id", JVal.str "r1")]
           "evaluator_id").getD (.str "unknown") = .str "unknown") ∧
      (hasKey [("session_id", JVal.str "s1"), ("score", JVal.num 1),
               ("accepted", JVal.bool true), ("riddle_id", JVal.str "r1")]
         "feedback" = false →
        (objGet [("session_id", JVal.str "s1"), ("score", JVal.num 1),
                 ("accepted", JVal.bool true), ("riddle_id", JVal.str "r1")]
           "feedback").getD (.str "No feedback provided") =
          .str "No feedback provided") :=
  claim_C2 "2024-01-01T00:00:00" []
    [("session_id", JVal.str "s1"), ("score", JVal.num 1),
     ("accepted", JVal.bool true), ("riddle_id", JVal.str "r1")] (by decide)

/-- C3: for every log state, the history endpoint reports total_results
equal to the true log length and a results list that is exactly the
min(10, total) most recently inserted entries in arrival order (a
contiguous suffix of the log). -/
theorem claim_C3 (log : List Entry) :
    ∃ pre suf, log = pre ++ suf ∧ suf.length = min 10 log.length ∧
      handshake_history log = .json 200 (.obj
        [("success", .bool true),
         ("data", .obj
           [("total_results", .num (log.length : ℚ)),
            ("results", .arr (suf.map JVal.obj))])]) := by
  refine ⟨log.take (log.length - 10), log.drop (log.length - 10),
          (List.take_append_drop _ _).symm, ?_, rfl⟩
  rw [List.length_drop]
  omega

/-- A freshly built result record carries all six submission fields. -/
lemma entryWF_mkResult (now : String) (v1 v2 v3 v4 eid fb : JVal) :
    entryWF (mkResult now v1 v2 v3 v4 eid fb) := by
  intro f hf
  simp only [entryFields, List.mem_cons, List.not_mem_nil, or_false] at hf
  rcases hf with rfl | rfl | rfl | rfl | rfl | rfl <;> rfl

/-- C4: every operation preserves the invariant that each stored entry
carries the four required fields plus evaluator_id and feedback; no
partial entry is ever stored. -/
theorem claim_C4 (log : List Entry) (req : Request)
    (h : ∀ e ∈ log, entryWF e) :
    ∀ e ∈ (step log req).2, entryWF e := by
  cases req with
  | postResult now gj =>
    intro e he
    simp only [step] at he
    rcases receive_log_shape now gj log with hl | ⟨v1, v2, v3, v4, eid, fb, hl⟩
    · rw [hl] at he
      exact h e he
    · rw [hl] at he
      rcases List.mem_append.mp he with h1 | h2
      · exact h e h1
      · have he2 : e = mkResult now v1 v2 v3 v4 eid fb := by simpa using h2
        rw [he2]
        exact entryWF_mkResult now v1 v2 v3 v4 eid fb
  | getInfo now => exact h
  | getHistory => exact h
  | getHealth now => exact h
  | getRoot => exact h

/-- Witness for C4: from the empty log, a concrete valid POST leaves
only well-formed entries, checked here on the riddle_id key of the one
entry the POST appended. -/
theorem claim_C4_witness :
    hasKey (mkResult "2024-01-01T00:00:00" (JVal.str "s1") (JVal.num 1)
      (JVal.bool true) (JVal.str "r1") (JVal.str "unknown")
      (JVal.str "No feedback provided")) "riddle_id" = true :=
  claim_C4 []
    (.postResult "2024-01-01T00:00:00"
      (.ok (.obj [("session_id", JVal.str "s1"), ("score", JVal.num 1),
                  ("accepted", JVal.bool true),
                  ("riddle_id", JVal.str "r1")])))
    (fun e he => absurd he (List.not_mem_nil e))
    (mkResult "2024-01-01T00:00:00" (JVal.str "s1") (JVal.num 1)
      (JVal.bool true) (JVal.str "r1") (JVal.str "unknown")
      (JVal.str "No feedback provided"))
    (List.Mem.head _) "riddle_id" (by simp [entryFields])

/-- C5: the result log is unchanged by any sequence of GET requests to
health, info, history and the root page, regardless of call count. -/
theorem claim_C5 (log : List Entry) (reqs : List Request)
    (h : ∀ r ∈ reqs, isGet r = true) :
    run log reqs = log := by
  induction reqs generalizing log with
  | nil => rfl
  | cons r rs ih =>
    have hr := h r (List.mem_cons_self r rs)
    have hrs : ∀ x ∈ rs, isGet x = true :=
      fun x hx => h x (List.mem_cons_of_mem r hx)
    cases r with
    | postResult now gj => simp [isGet] at hr
    | getInfo now => exact ih log hrs
    | getHistory => exact ih log hrs
    | getHealth now => exact ih log hrs
    | getRoot => exact ih log hrs

/-- Witness for C5: a concrete sequence of four GET requests leaves a
concrete one-entry log unchanged. -/
theorem claim_C5_witness :
    run [[("timestamp", JVal.str "t0")]]
      [.getHealth 0, .getInfo 1, .getHistory, .getRoot] =
      [[("timestamp", JVal.str "t0")]] :=
  claim_C5 [[("timestamp", JVal.str "t0")]]
    [.getHealth 0, .getInfo 1, .getHistory, .getRoot]
    (by intro r hr; fin_cases hr <;> rfl)

/-- C6: the info endpoint returns the fixed identity, version,
capability and status descriptor, the current stored-result count, and
an uptime field equal to the current clock reading, which is monotone in
the clock. -/
theorem claim_C6 (now : ℚ) (log : List Entry) :
    node_info now log = .json 200 (.obj
      [("success", .bool true),
       ("data", .obj
         [("node_id", .str "test-mock-node"),
          ("version", .str "1.0.0"),
          ("capabilities", .arr [.str "handshake_testing",
                                 .str "callback_verification"]),
          ("status", .str "active"),
          ("handshake_results_received", .num (log.length : ℚ)),
          ("uptime", .num now)])]) ∧
    uptimeOf (node_info now log) = some now ∧
    (∀ t1 t2 : ℚ, t1 ≤ t2 → ∀ u1 u2 : ℚ,
      uptimeOf (node_info t1 log) = some u1 →
      uptimeOf (node_info t2 log) = some u2 → u1 ≤ u2) := by
  refine ⟨rfl, rfl, ?_⟩
  intro t1 t2 hle u1 u2 h1 h2
  have e1 : uptimeOf (node_info t1 log) = some t1 := rfl
  have e2 : uptimeOf (node_info t2 log) = some t2 := rfl
  have h1' := e1.symm.trans h1
  have h2' := e2.symm.trans h2
  injection h1' with q1
  injection h2' with q2
  rw [← q1, ← q2]
  exact hle

/-- Witness for C6 at concrete clock readings 0 and 1 and the empty
log. -/
theorem claim_C6_witness :
    uptimeOf (node_info 0 []) = some 0 ∧ (0 : ℚ) ≤ 1 :=
  ⟨(claim_C6 0 []).2.1,
   (claim_C6 0 []).2.2 0 1 (by norm_num) 0 1 rfl rfl⟩

/-- C7 counterexample: the health endpoint's JSON body carries no
success boolean at all, refuting the claim that every response other
than the root page contains one. -/
theorem claim_C7_counterexample :
    health_check 0 = .json 200 (.obj
      [("status", JVal.str "healthy"), ("timestamp", JVal.num 0),
       ("node_type", JVal.str "mock_test_node")]) ∧
    hasKey [("status", JVal.str "healthy"), ("timestamp", JVal.num 0),
            ("node_type", JVal.str "mock_test_node")] "success" = false :=
  ⟨rfl, rfl⟩

/-- C7 amended: every response other than the root HTML page and the
health endpoint is a JSON object whose success key holds a boolean; the
health endpoint returns HTTP 200 with the JSON object of status healthy,
the current timestamp and the node type (no success key), and always
succeeds while the process runs. -/
theorem claim_C7_amended (log : List Entry) (req : Request) :
    match req with
    | .getHealth now => (step log req).1 = .json 200 (.obj
        [("status", .str "healthy"), ("timestamp", .num now),
         ("node_type", .str "mock_test_node")])
    | .getRoot => ∃ s, (step log req).1 = .html 200 s
    | _ => ∃ st kvs b, (step log req).1 = .json st (.obj kvs) ∧
        objGet kvs "success" = some (JVal.bool b) := by
  cases req with
  | postResult now gj =>
    rcases receive_cases now gj log with ⟨e, _, hr⟩ | ⟨r, ht, hr⟩
    · refine ⟨500, [("success", JVal.bool false), ("error", JVal.str e)],
              false, ?_, rfl⟩
      show (receive_handshake_result now gj log).1 = _
      rw [hr]
      rfl
    · cases gj with
      | error e2 => exact Except.noConfusion ht
      | ok data =>
        rcases handlePost_resp_shape now data log r ht with ⟨f, hf⟩ | hf
        · refine ⟨400, [("success", JVal.bool false),
                        ("error", JVal.str ("Missing required field: " ++ f))],
                  false, ?_, rfl⟩
          show (receive_handshake_result now (Except.ok data) log).1 = _
          rw [hr, hf]
          rfl
        · refine ⟨200, [("success", JVal.bool true),
                        ("message",
                         JVal.str "Handshake result received successfully"),
                        ("node_id", JVal.str "test-mock-node"),
                        ("timestamp", JVal.str now)], true, ?_, rfl⟩
          show (receive_handshake_result now (Except.ok data) log).1 = _
          rw [hr, hf]
          rfl
  | getInfo now => exact ⟨200, _, true, rfl, rfl⟩
  | getHistory => exact ⟨200, _, true, rfl, rfl⟩
  | getHealth now => rfl
  | getRoot => exact ⟨_, rfl⟩

/-- C8: any exception during POST processing other than a missing-field
validation failure is caught and surfaced as the HTTP 500 response with
success false and the raw error message, and the log is unchanged. -/
theorem claim_C8 (now : String) (gj : Except String JVal)
    (log : List Entry) (e : String)
    (h : tryBody now gj log = .error e) :
    receive_handshake_result now gj log = (serverErrResp e, log) := by
  unfold receive_handshake_result
  rw [h]

/-- Witness for C8: a body that parses to a JSON boolean makes the
membership test raise, and the caught exception is surfaced as the 500
response with the log unchanged. -/
theorem claim_C8_witness :
    receive_handshake_result "2024-01-01T00:00:00" (.ok (.bool true)) [] =
      (serverErrResp "argument of type bool is not iterable", []) :=
  claim_C8 "2024-01-01T00:00:00" (.ok (.bool true)) []
    "argument of type bool is not iterable" rfl

/-- C9: required-field validation checks key presence only, never
values: a body carrying riddle_id with value null (and the other
required keys) passes validation, is appended with the null value
stored, and gets the success response. -/
theorem claim_C9 (now : String) (log : List Entry) (kvs : Entry)
    (h1 : hasKey kvs "session_id" = true) (h2 : hasKey kvs "score" = true)
    (h3 : hasKey kvs "accepted" = true)
    (h4 : objGet kvs "riddle_id" = some JVal.null) :
    ∃ v1 v2 v3,
      objGet kvs "session_id" = some v1 ∧ objGet kvs "score" = some v2 ∧
      objGet kvs "accepted" = some v3 ∧
      receive_handshake_result now (.ok (.obj kvs)) log =
        (successResp now,
         log ++ [mkResult now v1 v2 v3 JVal.null
           ((objGet kvs "evaluator_id").getD (.str "unknown"))
           ((objGet kvs "feedback").getD (.str "No feedback provided"))]) := by
  have h4k := hasKey_of_objGet kvs "riddle_id" JVal.null h4
  obtain ⟨v1, v2, v3, v4, e1, e2, e3, e4, hh⟩ :=
    handlePost_all now log kvs h1 h2 h3 h4k
  have hv4 : v4 = JVal.null := by
    have := e4.symm.trans h4
    injection this
  rw [hv4] at hh
  exact ⟨v1, v2, v3, e1, e2, e3, by
    simp [receive_handshake_result, tryBody, hh]⟩

/-- Witness for C9 at a concrete body whose riddle_id is null: it is
accepted and stored with the null value. -/
theorem claim_C9_witness :
    ∃ v1 v2 v3,
      objGet [("session_id", JVal.str "s1"), ("score", JVal.num 1),
              ("accepted", JVal.bool true), ("riddle_id", JVal.null)]
        "session_id" = some v1 ∧
      objGet [("session_id", JVal.str "s1"), ("score", JVal.num 1),
              ("accepted", JVal.bool true), ("riddle_id", JVal.null)]
        "score" = some v2 ∧
      objGet [("session_id", JVal.str "s1"), ("score", JVal.num 1),
              ("accepted", JVal.bool true), ("riddle_id", JVal.null)]
        "accepted" = some v3 ∧
      receive_handshake_result "2024-01-01T00:00:00"
        (.ok (.obj [("session_id", JVal.str "s1"), ("score", JVal.num 1),
                    ("accepted", JVal.bool true),
                    ("riddle_id", JVal.null)])) [] =
        (successResp "2024-01-01T00:00:00",
         [] ++ [mkResult "2024-01-01T00:00:00" v1 v2 v3 JVal.null
           ((objGet [("session_id", JVal.str "s1"), ("score", JVal.num 1),
                     ("accepted", JVal.bool true), ("riddle_id", JVal.null)]
              "evaluator_id").getD (.str "unknown"))
           ((objGet [("session_id", JVal.str "s1"), ("score", JVal.num 1),
                     ("accepted", JVal.bool true), ("riddle_id", JVal.null)]
              "feedback").getD (.str "No feedback provided"))]) :=
  claim_C9 "2024-01-01T00:00:00" []
    [("session_id", JVal.str "s1"), ("score", JVal.num 1),
     ("accepted", JVal.bool true), ("riddle_id", JVal.null)]
    rfl rfl rfl rfl

/-- C10: when the parsed body is the JSON null (empty or non-JSON body),
the membership test on the first required field raises, and the caller
gets the HTTP 500 server error rather than a 400 validation error, with
the log unchanged. -/
theorem claim_C10 (now : String) (log : List Entry) :
    receive_handshake_result now (.ok .null) log =
      (serverErrResp "argument of type NoneType is not iterable", log) ∧
    (receive_handshake_result now (.ok .null) log).1.statusCode = 500 :=
  ⟨rfl, rfl⟩

end BotNet
